import Mathlib

/-!
# Quote schema of `finance-go` (`quote.go`)

A shallow embedding of the Go file `quote.go`: the two string-valued
classification types with their constants, and the flat `Quote` record with the
JSON key of every field.  The file declares types and constants only; the
operations that exist on them are the ones the Go language gives every such
declaration: the conversion `QuoteType(s)` / `MarketState(s)` from a string, the
composite literal `Quote{...}`, reading a field and assigning a field.
-/

namespace Finance

/-! ## Scalar types of the Go language used by the record -/

/-- Go `float64`: an IEEE 754 binary64 datum, kept as its 64-bit pattern
(1 sign bit, 11 exponent bits, 52 fraction bits). -/
structure Float64 where
  bits : Nat
  inRange : bits < 18446744073709551616
deriving DecidableEq

/-- The zero value of `float64`, `+0.0`. -/
def Float64.zero : Float64 := ⟨0, by decide⟩

/-- Sign bit of a binary64 datum. -/
def Float64.sign (x : Float64) : Bool := decide (x.bits / 2 ^ 63 = 1)

/-- Biased exponent of a binary64 datum. -/
def Float64.expo (x : Float64) : Nat := x.bits / 2 ^ 52 % 2 ^ 11

/-- Fraction bits of a binary64 datum. -/
def Float64.frac (x : Float64) : Nat := x.bits % 2 ^ 52

/-- Not-a-number data: all exponent bits set and a non-zero fraction. -/
def Float64.isNaN (x : Float64) : Bool := decide (x.expo = 2047) && decide (x.frac ≠ 0)

/-- Sign-magnitude reading of the bit pattern; it orders all non-NaN data the
way IEEE 754 does (`-0` and `+0` both read 0). -/
def Float64.key (x : Float64) : Int :=
  if x.sign then -((x.bits % 2 ^ 63 : Nat) : Int) else ((x.bits % 2 ^ 63 : Nat) : Int)

/-- Go `a < b` on `float64`: false when either side is NaN. -/
def Float64.lt (a b : Float64) : Bool := !a.isNaN && !b.isNaN && decide (a.key < b.key)

/-- Go `int` on a 64-bit target: a signed 64-bit integer. -/
structure GoInt where
  val : Int
  lo : -9223372036854775808 ≤ val
  hi : val < 9223372036854775808
deriving DecidableEq

/-- The zero value of `int`. -/
def GoInt.zero : GoInt := ⟨0, by decide, by decide⟩

/-- Go `int64`. -/
structure GoInt64 where
  val : Int
  lo : -9223372036854775808 ≤ val
  hi : val < 9223372036854775808
deriving DecidableEq

/-- The zero value of `int64`. -/
def GoInt64.zero : GoInt64 := ⟨0, by decide, by decide⟩

/-! ## Classification types -/

/-- Go `type QuoteType string`: a defined type whose values are strings. -/
structure QuoteType where
  val : String
deriving DecidableEq

/-- Go `type MarketState string`: a defined type whose values are strings. -/
structure MarketState where
  val : String
deriving DecidableEq

/-- The Go conversion `QuoteType(s)`: it keeps the string. -/
def QuoteType.ofString (s : String) : QuoteType := ⟨s⟩

/-- The Go conversion `MarketState(s)`: it keeps the string. -/
def MarketState.ofString (s : String) : MarketState := ⟨s⟩

/-- QuoteTypeEquity the returned quote should be an equity. -/
def QuoteTypeEquity : QuoteType := ⟨"EQUITY"⟩
/-- QuoteTypeIndex the returned quote should be an index. -/
def QuoteTypeIndex : QuoteType := ⟨"INDEX"⟩
/-- QuoteTypeOption the returned quote should be an option contract. -/
def QuoteTypeOption : QuoteType := ⟨"OPTION"⟩
/-- QuoteTypeForexPair the returned quote should be a forex pair. -/
def QuoteTypeForexPair : QuoteType := ⟨"CURRENCY"⟩
/-- QuoteTypeFuture the returned quote should be a futures contract. -/
def QuoteTypeFuture : QuoteType := ⟨"FUTURE"⟩
/-- QuoteTypeETF the returned quote should be an etf. -/
def QuoteTypeETF : QuoteType := ⟨"ETF"⟩
/-- QuoteTypeMutualFund the returned quote should be an mutual fund. -/
def QuoteTypeMutualFund : QuoteType := ⟨"MUTUALFUND"⟩

/-- MarketStatePrePre pre-pre market state. -/
def MarketStatePrePre : MarketState := ⟨"PREPRE"⟩
/-- MarketStatePre pre market state. -/
def MarketStatePre : MarketState := ⟨"PRE"⟩
/-- MarketStateRegular regular market state. -/
def MarketStateRegular : MarketState := ⟨"REGULAR"⟩
/-- MarketStatePost post market state. -/
def MarketStatePost : MarketState := ⟨"POST"⟩
/-- MarketStatePostPost post-post market state. -/
def MarketStatePostPost : MarketState := ⟨"POSTPOST"⟩
/-- MarketStateClosed closed market state. -/
def MarketStateClosed : MarketState := ⟨"CLOSED"⟩

/-- The seven `QuoteType` constants of the `const` block, in source order. -/
def quoteTypeConstants : List QuoteType :=
  [QuoteTypeEquity, QuoteTypeIndex, QuoteTypeOption, QuoteTypeForexPair, QuoteTypeFuture,
   QuoteTypeETF, QuoteTypeMutualFund]

/-- The six `MarketState` constants of the `const` block, in source order. -/
def marketStateConstants : List MarketState :=
  [MarketStatePrePre, MarketStatePre, MarketStateRegular, MarketStatePost, MarketStatePostPost,
   MarketStateClosed]

/-- The seven instrument-type wire strings as the specification lists them. -/
def quoteTypeLiterals : List String :=
  ["EQUITY", "INDEX", "OPTION", "CURRENCY", "FUTURE", "ETF", "MUTUALFUND"]

/-- The six market-state wire strings as the specification lists them. -/
def marketStateLiterals : List String :=
  ["PREPRE", "PRE", "REGULAR", "POST", "POSTPOST", "CLOSED"]

/-! ## The `Quote` record -/

/-- Quote is the basic quote structure. -/
structure Quote where
  -- Quote classifying fields.
  Symbol : String
  MarketState : MarketState
  QuoteType : QuoteType
  ShortName : String
  LongName : String
  -- Regular session quote data.
  RegularMarketChangePercent : Float64
  RegularMarketPreviousClose : Float64
  RegularMarketPrice : Float64
  RegularMarketTime : GoInt
  RegularMarketChange : Float64
  RegularMarketOpen : Float64
  RegularMarketDayHigh : Float64
  RegularMarketDayLow : Float64
  RegularMarketVolume : GoInt
  -- Quote depth.
  Bid : Float64
  Ask : Float64
  BidSize : GoInt
  AskSize : GoInt
  -- Pre-market quote data.
  PreMarketPrice : Float64
  PreMarketChange : Float64
  PreMarketChangePercent : Float64
  PreMarketTime : GoInt
  -- Post-market quote data.
  PostMarketPrice : Float64
  PostMarketChange : Float64
  PostMarketChangePercent : Float64
  PostMarketTime : GoInt
  -- 52wk ranges.
  FiftyTwoWeekLowChange : Float64
  FiftyTwoWeekLowChangePercent : Float64
  FiftyTwoWeekHighChange : Float64
  FiftyTwoWeekHighChangePercent : Float64
  FiftyTwoWeekLow : Float64
  FiftyTwoWeekHigh : Float64
  -- Averages.
  FiftyDayAverage : Float64
  FiftyDayAverageChange : Float64
  FiftyDayAverageChangePercent : Float64
  TwoHundredDayAverage : Float64
  TwoHundredDayAverageChange : Float64
  TwoHundredDayAverageChangePercent : Float64
  -- Volume metrics.
  AverageDailyVolume3Month : GoInt
  AverageDailyVolume10Day : GoInt
  -- Quote meta-data.
  QuoteSource : String
  CurrencyID : String
  IsTradeable : Bool
  QuoteDelay : GoInt
  FullExchangeName : String
  SourceInterval : GoInt
  ExchangeTimezoneName : String
  ExchangeTimezoneShortName : String
  GMTOffSetMilliseconds : GoInt
  MarketID : String
  ExchangeID : String
  -- Equity-only.
  EpsTrailingTwelveMonths : Float64
  EpsForward : Float64
  EarningsTimestamp : GoInt
  EarningsTimestampStart : GoInt
  EarningsTimestampEnd : GoInt
  TrailingAnnualDividendRate : Float64
  DividendDate : GoInt
  TrailingAnnualDividendYield : Float64
  TrailingPE : Float64
  ForwardPE : Float64
  BookValue : Float64
  PriceToBook : Float64
  SharesOutstanding : GoInt
  MarketCap : GoInt64
  -- MutualFund/ETF-only.
  YTDReturn : Float64
  TrailingThreeMonthReturns : Float64
  TrailingThreeMonthNavReturns : Float64
  -- Options/Futures-only.
  UnderlyingSymbol : String
  OpenInterest : GoInt
  ExpireDate : GoInt
  Strike : Float64
  UnderlyingExchangeSymbol : String
  HeadSymbolAsString : String
  IsContractSymbol : Bool
deriving DecidableEq

/-- The names of the fields of `Quote`, in source order. -/
inductive Field where
  -- Quote classifying fields.
  | Symbol
  | MarketState
  | QuoteType
  | ShortName
  | LongName
  -- Regular session quote data.
  | RegularMarketChangePercent
  | RegularMarketPreviousClose
  | RegularMarketPrice
  | RegularMarketTime
  | RegularMarketChange
  | RegularMarketOpen
  | RegularMarketDayHigh
  | RegularMarketDayLow
  | RegularMarketVolume
  -- Quote depth.
  | Bid
  | Ask
  | BidSize
  | AskSize
  -- Pre-market quote data.
  | PreMarketPrice
  | PreMarketChange
  | PreMarketChangePercent
  | PreMarketTime
  -- Post-market quote data.
  | PostMarketPrice
  | PostMarketChange
  | PostMarketChangePercent
  | PostMarketTime
  -- 52wk ranges.
  | FiftyTwoWeekLowChange
  | FiftyTwoWeekLowChangePercent
  | FiftyTwoWeekHighChange
  | FiftyTwoWeekHighChangePercent
  | FiftyTwoWeekLow
  | FiftyTwoWeekHigh
  -- Averages.
  | FiftyDayAverage
  | FiftyDayAverageChange
  | FiftyDayAverageChangePercent
  | TwoHundredDayAverage
  | TwoHundredDayAverageChange
  | TwoHundredDayAverageChangePercent
  -- Volume metrics.
  | AverageDailyVolume3Month
  | AverageDailyVolume10Day
  -- Quote meta-data.
  | QuoteSource
  | CurrencyID
  | IsTradeable
  | QuoteDelay
  | FullExchangeName
  | SourceInterval
  | ExchangeTimezoneName
  | ExchangeTimezoneShortName
  | GMTOffSetMilliseconds
  | MarketID
  | ExchangeID
  -- Equity-only.
  | EpsTrailingTwelveMonths
  | EpsForward
  | EarningsTimestamp
  | EarningsTimestampStart
  | EarningsTimestampEnd
  | TrailingAnnualDividendRate
  | DividendDate
  | TrailingAnnualDividendYield
  | TrailingPE
  | ForwardPE
  | BookValue
  | PriceToBook
  | SharesOutstanding
  | MarketCap
  -- MutualFund/ETF-only.
  | YTDReturn
  | TrailingThreeMonthReturns
  | TrailingThreeMonthNavReturns
  -- Options/Futures-only.
  | UnderlyingSymbol
  | OpenInterest
  | ExpireDate
  | Strike
  | UnderlyingExchangeSymbol
  | HeadSymbolAsString
  | IsContractSymbol
deriving DecidableEq

/-- The declared Go type of each field. -/
@[reducible]
def Field.type : Field → Type
  | .Symbol => String
  | .MarketState => Finance.MarketState
  | .QuoteType => Finance.QuoteType
  | .ShortName => String
  | .LongName => String
  | .RegularMarketChangePercent => Float64
  | .RegularMarketPreviousClose => Float64
  | .RegularMarketPrice => Float64
  | .RegularMarketTime => GoInt
  | .RegularMarketChange => Float64
  | .RegularMarketOpen => Float64
  | .RegularMarketDayHigh => Float64
  | .RegularMarketDayLow => Float64
  | .RegularMarketVolume => GoInt
  | .Bid => Float64
  | .Ask => Float64
  | .BidSize => GoInt
  | .AskSize => GoInt
  | .PreMarketPrice => Float64
  | .PreMarketChange => Float64
  | .PreMarketChangePercent => Float64
  | .PreMarketTime => GoInt
  | .PostMarketPrice => Float64
  | .PostMarketChange => Float64
  | .PostMarketChangePercent => Float64
  | .PostMarketTime => GoInt
  | .FiftyTwoWeekLowChange => Float64
  | .FiftyTwoWeekLowChangePercent => Float64
  | .FiftyTwoWeekHighChange => Float64
  | .FiftyTwoWeekHighChangePercent => Float64
  | .FiftyTwoWeekLow => Float64
  | .FiftyTwoWeekHigh => Float64
  | .FiftyDayAverage => Float64
  | .FiftyDayAverageChange => Float64
  | .FiftyDayAverageChangePercent => Float64
  | .TwoHundredDayAverage => Float64
  | .TwoHundredDayAverageChange => Float64
  | .TwoHundredDayAverageChangePercent => Float64
  | .AverageDailyVolume3Month => GoInt
  | .AverageDailyVolume10Day => GoInt
  | .QuoteSource => String
  | .CurrencyID => String
  | .IsTradeable => Bool
  | .QuoteDelay => GoInt
  | .FullExchangeName => String
  | .SourceInterval => GoInt
  | .ExchangeTimezoneName => String
  | .ExchangeTimezoneShortName => String
  | .GMTOffSetMilliseconds => GoInt
  | .MarketID => String
  | .ExchangeID => String
  | .EpsTrailingTwelveMonths => Float64
  | .EpsForward => Float64
  | .EarningsTimestamp => GoInt
  | .EarningsTimestampStart => GoInt
  | .EarningsTimestampEnd => GoInt
  | .TrailingAnnualDividendRate => Float64
  | .DividendDate => GoInt
  | .TrailingAnnualDividendYield => Float64
  | .TrailingPE => Float64
  | .ForwardPE => Float64
  | .BookValue => Float64
  | .PriceToBook => Float64
  | .SharesOutstanding => GoInt
  | .MarketCap => GoInt64
  | .YTDReturn => Float64
  | .TrailingThreeMonthReturns => Float64
  | .TrailingThreeMonthNavReturns => Float64
  | .UnderlyingSymbol => String
  | .OpenInterest => GoInt
  | .ExpireDate => GoInt
  | .Strike => Float64
  | .UnderlyingExchangeSymbol => String
  | .HeadSymbolAsString => String
  | .IsContractSymbol => Bool

/-- The key of each field in the wire (JSON) object: the field's `json:"..."` tag. -/
def Field.jsonKey : Field → String
  | .Symbol => "symbol"
  | .MarketState => "marketState"
  | .QuoteType => "quoteType"
  | .ShortName => "shortName"
  | .LongName => "longName"
  | .RegularMarketChangePercent => "regularMarketChangePercent"
  | .RegularMarketPreviousClose => "regularMarketPreviousClose"
  | .RegularMarketPrice => "regularMarketPrice"
  | .RegularMarketTime => "regularMarketTime"
  | .RegularMarketChange => "regularMarketChange"
  | .RegularMarketOpen => "regularMarketOpen"
  | .RegularMarketDayHigh => "regularMarketDayHigh"
  | .RegularMarketDayLow => "regularMarketDayLow"
  | .RegularMarketVolume => "regularMarketVolume"
  | .Bid => "bid"
  | .Ask => "ask"
  | .BidSize => "bidSize"
  | .AskSize => "askSize"
  | .PreMarketPrice => "preMarketPrice"
  | .PreMarketChange => "preMarketChange"
  | .PreMarketChangePercent => "preMarketChangePercent"
  | .PreMarketTime => "preMarketTime"
  | .PostMarketPrice => "postMarketPrice"
  | .PostMarketChange => "postMarketChange"
  | .PostMarketChangePercent => "postMarketChangePercent"
  | .PostMarketTime => "postMarketTime"
  | .FiftyTwoWeekLowChange => "fiftyTwoWeekLowChange"
  | .FiftyTwoWeekLowChangePercent => "fiftyTwoWeekLowChangePercent"
  | .FiftyTwoWeekHighChange => "fiftyTwoWeekHighChange"
  | .FiftyTwoWeekHighChangePercent => "fiftyTwoWeekHighChangePercent"
  | .FiftyTwoWeekLow => "fiftyTwoWeekLow"
  | .FiftyTwoWeekHigh => "fiftyTwoWeekHigh"
  | .FiftyDayAverage => "fiftyDayAverage"
  | .FiftyDayAverageChange => "fiftyDayAverageChange"
  | .FiftyDayAverageChangePercent => "fiftyDayAverageChangePercent"
  | .TwoHundredDayAverage => "twoHundredDayAverage"
  | .TwoHundredDayAverageChange => "twoHundredDayAverageChange"
  | .TwoHundredDayAverageChangePercent => "twoHundredDayAverageChangePercent"
  | .AverageDailyVolume3Month => "averageDailyVolume3Month"
  | .AverageDailyVolume10Day => "averageDailyVolume10Day"
  | .QuoteSource => "quoteSourceName"
  | .CurrencyID => "currency"
  | .IsTradeable => "tradeable"
  | .QuoteDelay => "exchangeDataDelayedBy"
  | .FullExchangeName => "fullExchangeName"
  | .SourceInterval => "sourceInterval"
  | .ExchangeTimezoneName => "exchangeTimezoneName"
  | .ExchangeTimezoneShortName => "exchangeTimezoneShortName"
  | .GMTOffSetMilliseconds => "gmtOffSetMilliseconds"
  | .MarketID => "market"
  | .ExchangeID => "exchange"
  | .EpsTrailingTwelveMonths => "epsTrailingTwelveMonths"
  | .EpsForward => "epsForward"
  | .EarningsTimestamp => "earningsTimestamp"
  | .EarningsTimestampStart => "earningsTimestampStart"
  | .EarningsTimestampEnd => "earningsTimestampEnd"
  | .TrailingAnnualDividendRate => "trailingAnnualDividendRate"
  | .DividendDate => "dividendDate"
  | .TrailingAnnualDividendYield => "trailingAnnualDividendYield"
  | .TrailingPE => "trailingPE"
  | .ForwardPE => "forwardPE"
  | .BookValue => "bookValue"
  | .PriceToBook => "priceToBook"
  | .SharesOutstanding => "sharesOutstanding"
  | .MarketCap => "marketCap"
  | .YTDReturn => "ytdReturn"
  | .TrailingThreeMonthReturns => "trailingThreeMonthReturns"
  | .TrailingThreeMonthNavReturns => "trailingThreeMonthNavReturns"
  | .UnderlyingSymbol => "underlyingSymbol"
  | .OpenInterest => "openInterest"
  | .ExpireDate => "expireDate"
  | .Strike => "strike"
  | .UnderlyingExchangeSymbol => "underlyingExchangeSymbol"
  | .HeadSymbolAsString => "headSymbolAsString"
  | .IsContractSymbol => "contractSymbol"

/-- Every field of `Quote`, in source order. -/
def Field.all : List Field :=
  [Field.Symbol, Field.MarketState, Field.QuoteType, Field.ShortName, Field.LongName,
   Field.RegularMarketChangePercent, Field.RegularMarketPreviousClose, Field.RegularMarketPrice,
   Field.RegularMarketTime, Field.RegularMarketChange, Field.RegularMarketOpen,
   Field.RegularMarketDayHigh, Field.RegularMarketDayLow, Field.RegularMarketVolume, Field.Bid,
   Field.Ask, Field.BidSize, Field.AskSize, Field.PreMarketPrice, Field.PreMarketChange,
   Field.PreMarketChangePercent, Field.PreMarketTime, Field.PostMarketPrice,
   Field.PostMarketChange, Field.PostMarketChangePercent, Field.PostMarketTime,
   Field.FiftyTwoWeekLowChange, Field.FiftyTwoWeekLowChangePercent, Field.FiftyTwoWeekHighChange,
   Field.FiftyTwoWeekHighChangePercent, Field.FiftyTwoWeekLow, Field.FiftyTwoWeekHigh,
   Field.FiftyDayAverage, Field.FiftyDayAverageChange, Field.FiftyDayAverageChangePercent,
   Field.TwoHundredDayAverage, Field.TwoHundredDayAverageChange,
   Field.TwoHundredDayAverageChangePercent, Field.AverageDailyVolume3Month,
   Field.AverageDailyVolume10Day, Field.QuoteSource, Field.CurrencyID, Field.IsTradeable,
   Field.QuoteDelay, Field.FullExchangeName, Field.SourceInterval, Field.ExchangeTimezoneName,
   Field.ExchangeTimezoneShortName, Field.GMTOffSetMilliseconds, Field.MarketID,
   Field.ExchangeID, Field.EpsTrailingTwelveMonths, Field.EpsForward, Field.EarningsTimestamp,
   Field.EarningsTimestampStart, Field.EarningsTimestampEnd, Field.TrailingAnnualDividendRate,
   Field.DividendDate, Field.TrailingAnnualDividendYield, Field.TrailingPE, Field.ForwardPE,
   Field.BookValue, Field.PriceToBook, Field.SharesOutstanding, Field.MarketCap, Field.YTDReturn,
   Field.TrailingThreeMonthReturns, Field.TrailingThreeMonthNavReturns, Field.UnderlyingSymbol,
   Field.OpenInterest, Field.ExpireDate, Field.Strike, Field.UnderlyingExchangeSymbol,
   Field.HeadSymbolAsString, Field.IsContractSymbol]

/-- Reading a field: the Go selector `q.F`.  One arm per field, in the order of
the constructors of `Field`. -/
def Quote.get (q : Quote) (f : Field) : f.type :=
  @Field.casesOn (fun f => f.type) f
    q.Symbol
    q.MarketState
    q.QuoteType
    q.ShortName
    q.LongName
    q.RegularMarketChangePercent
    q.RegularMarketPreviousClose
    q.RegularMarketPrice
    q.RegularMarketTime
    q.RegularMarketChange
    q.RegularMarketOpen
    q.RegularMarketDayHigh
    q.RegularMarketDayLow
    q.RegularMarketVolume
    q.Bid
    q.Ask
    q.BidSize
    q.AskSize
    q.PreMarketPrice
    q.PreMarketChange
    q.PreMarketChangePercent
    q.PreMarketTime
    q.PostMarketPrice
    q.PostMarketChange
    q.PostMarketChangePercent
    q.PostMarketTime
    q.FiftyTwoWeekLowChange
    q.FiftyTwoWeekLowChangePercent
    q.FiftyTwoWeekHighChange
    q.FiftyTwoWeekHighChangePercent
    q.FiftyTwoWeekLow
    q.FiftyTwoWeekHigh
    q.FiftyDayAverage
    q.FiftyDayAverageChange
    q.FiftyDayAverageChangePercent
    q.TwoHundredDayAverage
    q.TwoHundredDayAverageChange
    q.TwoHundredDayAverageChangePercent
    q.AverageDailyVolume3Month
    q.AverageDailyVolume10Day
    q.QuoteSource
    q.CurrencyID
    q.IsTradeable
    q.QuoteDelay
    q.FullExchangeName
    q.SourceInterval
    q.ExchangeTimezoneName
    q.ExchangeTimezoneShortName
    q.GMTOffSetMilliseconds
    q.MarketID
    q.ExchangeID
    q.EpsTrailingTwelveMonths
    q.EpsForward
    q.EarningsTimestamp
    q.EarningsTimestampStart
    q.EarningsTimestampEnd
    q.TrailingAnnualDividendRate
    q.DividendDate
    q.TrailingAnnualDividendYield
    q.TrailingPE
    q.ForwardPE
    q.BookValue
    q.PriceToBook
    q.SharesOutstanding
    q.MarketCap
    q.YTDReturn
    q.TrailingThreeMonthReturns
    q.TrailingThreeMonthNavReturns
    q.UnderlyingSymbol
    q.OpenInterest
    q.ExpireDate
    q.Strike
    q.UnderlyingExchangeSymbol
    q.HeadSymbolAsString
    q.IsContractSymbol

/-- Assigning a field: the Go statement `q.F = v`, as the value of `q` after it.
One arm per field, in the order of the constructors of `Field`. -/
def Quote.set (q : Quote) (f : Field) : f.type → Quote :=
  @Field.casesOn (fun f => f.type → Quote) f
    (fun v => { q with Symbol := v })
    (fun v => { q with MarketState := v })
    (fun v => { q with QuoteType := v })
    (fun v => { q with ShortName := v })
    (fun v => { q with LongName := v })
    (fun v => { q with RegularMarketChangePercent := v })
    (fun v => { q with RegularMarketPreviousClose := v })
    (fun v => { q with RegularMarketPrice := v })
    (fun v => { q with RegularMarketTime := v })
    (fun v => { q with RegularMarketChange := v })
    (fun v => { q with RegularMarketOpen := v })
    (fun v => { q with RegularMarketDayHigh := v })
    (fun v => { q with RegularMarketDayLow := v })
    (fun v => { q with RegularMarketVolume := v })
    (fun v => { q with Bid := v })
    (fun v => { q with Ask := v })
    (fun v => { q with BidSize := v })
    (fun v => { q with AskSize := v })
    (fun v => { q with PreMarketPrice := v })
    (fun v => { q with PreMarketChange := v })
    (fun v => { q with PreMarketChangePercent := v })
    (fun v => { q with PreMarketTime := v })
    (fun v => { q with PostMarketPrice := v })
    (fun v => { q with PostMarketChange := v })
    (fun v => { q with PostMarketChangePercent := v })
    (fun v => { q with PostMarketTime := v })
    (fun v => { q with FiftyTwoWeekLowChange := v })
    (fun v => { q with FiftyTwoWeekLowChangePercent := v })
    (fun v => { q with FiftyTwoWeekHighChange := v })
    (fun v => { q with FiftyTwoWeekHighChangePercent := v })
    (fun v => { q with FiftyTwoWeekLow := v })
    (fun v => { q with FiftyTwoWeekHigh := v })
    (fun v => { q with FiftyDayAverage := v })
    (fun v => { q with FiftyDayAverageChange := v })
    (fun v => { q with FiftyDayAverageChangePercent := v })
    (fun v => { q with TwoHundredDayAverage := v })
    (fun v => { q with TwoHundredDayAverageChange := v })
    (fun v => { q with TwoHundredDayAverageChangePercent := v })
    (fun v => { q with AverageDailyVolume3Month := v })
    (fun v => { q with AverageDailyVolume10Day := v })
    (fun v => { q with QuoteSource := v })
    (fun v => { q with CurrencyID := v })
    (fun v => { q with IsTradeable := v })
    (fun v => { q with QuoteDelay := v })
    (fun v => { q with FullExchangeName := v })
    (fun v => { q with SourceInterval := v })
    (fun v => { q with ExchangeTimezoneName := v })
    (fun v => { q with ExchangeTimezoneShortName := v })
    (fun v => { q with GMTOffSetMilliseconds := v })
    (fun v => { q with MarketID := v })
    (fun v => { q with ExchangeID := v })
    (fun v => { q with EpsTrailingTwelveMonths := v })
    (fun v => { q with EpsForward := v })
    (fun v => { q with EarningsTimestamp := v })
    (fun v => { q with EarningsTimestampStart := v })
    (fun v => { q with EarningsTimestampEnd := v })
    (fun v => { q with TrailingAnnualDividendRate := v })
    (fun v => { q with DividendDate := v })
    (fun v => { q with TrailingAnnualDividendYield := v })
    (fun v => { q with TrailingPE := v })
    (fun v => { q with ForwardPE := v })
    (fun v => { q with BookValue := v })
    (fun v => { q with PriceToBook := v })
    (fun v => { q with SharesOutstanding := v })
    (fun v => { q with MarketCap := v })
    (fun v => { q with YTDReturn := v })
    (fun v => { q with TrailingThreeMonthReturns := v })
    (fun v => { q with TrailingThreeMonthNavReturns := v })
    (fun v => { q with UnderlyingSymbol := v })
    (fun v => { q with OpenInterest := v })
    (fun v => { q with ExpireDate := v })
    (fun v => { q with Strike := v })
    (fun v => { q with UnderlyingExchangeSymbol := v })
    (fun v => { q with HeadSymbolAsString := v })
    (fun v => { q with IsContractSymbol := v })

/-- The zero value of the record, Go `Quote{}`. -/
def Quote.zero : Quote :=
  { Symbol := ""
    MarketState := MarketState.ofString ""
    QuoteType := QuoteType.ofString ""
    ShortName := ""
    LongName := ""
    RegularMarketChangePercent := Float64.zero
    RegularMarketPreviousClose := Float64.zero
    RegularMarketPrice := Float64.zero
    RegularMarketTime := GoInt.zero
    RegularMarketChange := Float64.zero
    RegularMarketOpen := Float64.zero
    RegularMarketDayHigh := Float64.zero
    RegularMarketDayLow := Float64.zero
    RegularMarketVolume := GoInt.zero
    Bid := Float64.zero
    Ask := Float64.zero
    BidSize := GoInt.zero
    AskSize := GoInt.zero
    PreMarketPrice := Float64.zero
    PreMarketChange := Float64.zero
    PreMarketChangePercent := Float64.zero
    PreMarketTime := GoInt.zero
    PostMarketPrice := Float64.zero
    PostMarketChange := Float64.zero
    PostMarketChangePercent := Float64.zero
    PostMarketTime := GoInt.zero
    FiftyTwoWeekLowChange := Float64.zero
    FiftyTwoWeekLowChangePercent := Float64.zero
    FiftyTwoWeekHighChange := Float64.zero
    FiftyTwoWeekHighChangePercent := Float64.zero
    FiftyTwoWeekLow := Float64.zero
    FiftyTwoWeekHigh := Float64.zero
    FiftyDayAverage := Float64.zero
    FiftyDayAverageChange := Float64.zero
    FiftyDayAverageChangePercent := Float64.zero
    TwoHundredDayAverage := Float64.zero
    TwoHundredDayAverageChange := Float64.zero
    TwoHundredDayAverageChangePercent := Float64.zero
    AverageDailyVolume3Month := GoInt.zero
    AverageDailyVolume10Day := GoInt.zero
    QuoteSource := ""
    CurrencyID := ""
    IsTradeable := false
    QuoteDelay := GoInt.zero
    FullExchangeName := ""
    SourceInterval := GoInt.zero
    ExchangeTimezoneName := ""
    ExchangeTimezoneShortName := ""
    GMTOffSetMilliseconds := GoInt.zero
    MarketID := ""
    ExchangeID := ""
    EpsTrailingTwelveMonths := Float64.zero
    EpsForward := Float64.zero
    EarningsTimestamp := GoInt.zero
    EarningsTimestampStart := GoInt.zero
    EarningsTimestampEnd := GoInt.zero
    TrailingAnnualDividendRate := Float64.zero
    DividendDate := GoInt.zero
    TrailingAnnualDividendYield := Float64.zero
    TrailingPE := Float64.zero
    ForwardPE := Float64.zero
    BookValue := Float64.zero
    PriceToBook := Float64.zero
    SharesOutstanding := GoInt.zero
    MarketCap := GoInt64.zero
    YTDReturn := Float64.zero
    TrailingThreeMonthReturns := Float64.zero
    TrailingThreeMonthNavReturns := Float64.zero
    UnderlyingSymbol := ""
    OpenInterest := GoInt.zero
    ExpireDate := GoInt.zero
    Strike := Float64.zero
    UnderlyingExchangeSymbol := ""
    HeadSymbolAsString := ""
    IsContractSymbol := false }

/-- The composite literal `Quote{Symbol: ..., ..., IsContractSymbol: ...}` giving every field
a value. -/
def Quote.ofFields (vals : (f : Field) → f.type) : Quote :=
  { Symbol := vals .Symbol
    MarketState := vals .MarketState
    QuoteType := vals .QuoteType
    ShortName := vals .ShortName
    LongName := vals .LongName
    RegularMarketChangePercent := vals .RegularMarketChangePercent
    RegularMarketPreviousClose := vals .RegularMarketPreviousClose
    RegularMarketPrice := vals .RegularMarketPrice
    RegularMarketTime := vals .RegularMarketTime
    RegularMarketChange := vals .RegularMarketChange
    RegularMarketOpen := vals .RegularMarketOpen
    RegularMarketDayHigh := vals .RegularMarketDayHigh
    RegularMarketDayLow := vals .RegularMarketDayLow
    RegularMarketVolume := vals .RegularMarketVolume
    Bid := vals .Bid
    Ask := vals .Ask
    BidSize := vals .BidSize
    AskSize := vals .AskSize
    PreMarketPrice := vals .PreMarketPrice
    PreMarketChange := vals .PreMarketChange
    PreMarketChangePercent := vals .PreMarketChangePercent
    PreMarketTime := vals .PreMarketTime
    PostMarketPrice := vals .PostMarketPrice
    PostMarketChange := vals .PostMarketChange
    PostMarketChangePercent := vals .PostMarketChangePercent
    PostMarketTime := vals .PostMarketTime
    FiftyTwoWeekLowChange := vals .FiftyTwoWeekLowChange
    FiftyTwoWeekLowChangePercent := vals .FiftyTwoWeekLowChangePercent
    FiftyTwoWeekHighChange := vals .FiftyTwoWeekHighChange
    FiftyTwoWeekHighChangePercent := vals .FiftyTwoWeekHighChangePercent
    FiftyTwoWeekLow := vals .FiftyTwoWeekLow
    FiftyTwoWeekHigh := vals .FiftyTwoWeekHigh
    FiftyDayAverage := vals .FiftyDayAverage
    FiftyDayAverageChange := vals .FiftyDayAverageChange
    FiftyDayAverageChangePercent := vals .FiftyDayAverageChangePercent
    TwoHundredDayAverage := vals .TwoHundredDayAverage
    TwoHundredDayAverageChange := vals .TwoHundredDayAverageChange
    TwoHundredDayAverageChangePercent := vals .TwoHundredDayAverageChangePercent
    AverageDailyVolume3Month := vals .AverageDailyVolume3Month
    AverageDailyVolume10Day := vals .AverageDailyVolume10Day
    QuoteSource := vals .QuoteSource
    CurrencyID := vals .CurrencyID
    IsTradeable := vals .IsTradeable
    QuoteDelay := vals .QuoteDelay
    FullExchangeName := vals .FullExchangeName
    SourceInterval := vals .SourceInterval
    ExchangeTimezoneName := vals .ExchangeTimezoneName
    ExchangeTimezoneShortName := vals .ExchangeTimezoneShortName
    GMTOffSetMilliseconds := vals .GMTOffSetMilliseconds
    MarketID := vals .MarketID
    ExchangeID := vals .ExchangeID
    EpsTrailingTwelveMonths := vals .EpsTrailingTwelveMonths
    EpsForward := vals .EpsForward
    EarningsTimestamp := vals .EarningsTimestamp
    EarningsTimestampStart := vals .EarningsTimestampStart
    EarningsTimestampEnd := vals .EarningsTimestampEnd
    TrailingAnnualDividendRate := vals .TrailingAnnualDividendRate
    DividendDate := vals .DividendDate
    TrailingAnnualDividendYield := vals .TrailingAnnualDividendYield
    TrailingPE := vals .TrailingPE
    ForwardPE := vals .ForwardPE
    BookValue := vals .BookValue
    PriceToBook := vals .PriceToBook
    SharesOutstanding := vals .SharesOutstanding
    MarketCap := vals .MarketCap
    YTDReturn := vals .YTDReturn
    TrailingThreeMonthReturns := vals .TrailingThreeMonthReturns
    TrailingThreeMonthNavReturns := vals .TrailingThreeMonthNavReturns
    UnderlyingSymbol := vals .UnderlyingSymbol
    OpenInterest := vals .OpenInterest
    ExpireDate := vals .ExpireDate
    Strike := vals .Strike
    UnderlyingExchangeSymbol := vals .UnderlyingExchangeSymbol
    HeadSymbolAsString := vals .HeadSymbolAsString
    IsContractSymbol := vals .IsContractSymbol }

/-- ASCII lower-casing of a key, for comparing keys without regard to letter case. -/
def foldKey (s : String) : List Char := s.data.map Char.toLower

/-! ## Go equality -/

/-- Go `a == b` on `float64`: IEEE 754 equality, false when either side is NaN, true for
`-0 == +0`. -/
def Float64.goEq (a b : Float64) : Bool := !a.isNaN && !b.isNaN && decide (a.key = b.key)

/-- Go `==` on two values of a field of `Quote`: IEEE equality for the `float64` fields,
equality of the values for the string, integer and boolean fields.  One arm per field, in the
order of the constructors of `Field`. -/
def Field.valEq (f : Field) : f.type → f.type → Bool :=
  @Field.casesOn (fun f => f.type → f.type → Bool) f
    (fun a b => decide (a = b))
    (fun a b => decide (a = b))
    (fun a b => decide (a = b))
    (fun a b => decide (a = b))
    (fun a b => decide (a = b))
    Float64.goEq
    Float64.goEq
    Float64.goEq
    (fun a b => decide (a = b))
    Float64.goEq
    Float64.goEq
    Float64.goEq
    Float64.goEq
    (fun a b => decide (a = b))
    Float64.goEq
    Float64.goEq
    (fun a b => decide (a = b))
    (fun a b => decide (a = b))
    Float64.goEq
    Float64.goEq
    Float64.goEq
    (fun a b => decide (a = b))
    Float64.goEq
    Float64.goEq
    Float64.goEq
    (fun a b => decide (a = b))
    Float64.goEq
    Float64.goEq
    Float64.goEq
    Float64.goEq
    Float64.goEq
    Float64.goEq
    Float64.goEq
    Float64.goEq
    Float64.goEq
    Float64.goEq
    Float64.goEq
    Float64.goEq
    (fun a b => decide (a = b))
    (fun a b => decide (a = b))
    (fun a b => decide (a = b))
    (fun a b => decide (a = b))
    (fun a b => decide (a = b))
    (fun a b => decide (a = b))
    (fun a b => decide (a = b))
    (fun a b => decide (a = b))
    (fun a b => decide (a = b))
    (fun a b => decide (a = b))
    (fun a b => decide (a = b))
    (fun a b => decide (a = b))
    (fun a b => decide (a = b))
    Float64.goEq
    Float64.goEq
    (fun a b => decide (a = b))
    (fun a b => decide (a = b))
    (fun a b => decide (a = b))
    Float64.goEq
    (fun a b => decide (a = b))
    Float64.goEq
    Float64.goEq
    Float64.goEq
    Float64.goEq
    Float64.goEq
    (fun a b => decide (a = b))
    (fun a b => decide (a = b))
    Float64.goEq
    Float64.goEq
    Float64.goEq
    (fun a b => decide (a = b))
    (fun a b => decide (a = b))
    (fun a b => decide (a = b))
    Float64.goEq
    (fun a b => decide (a = b))
    (fun a b => decide (a = b))
    (fun a b => decide (a = b))

/-- Go `a == b` on two `Quote` values: every field compares equal. -/
def Quote.goEq (a b : Quote) : Bool := Field.all.all fun f => f.valEq (a.get f) (b.get f)

/-- The `float64` value `1.0`. -/
def Float64.one : Float64 := ⟨0x3FF0000000000000, by decide⟩

/-- The `float64` value `2.0`. -/
def Float64.two : Float64 := ⟨0x4000000000000000, by decide⟩

/-- The `float64` value `-1.0`. -/
def Float64.negOne : Float64 := ⟨0xBFF0000000000000, by decide⟩

/-- The `int` value `-1`. -/
def GoInt.negOne : GoInt := ⟨-1, by decide, by decide⟩

/-- The `int` value `1700000000`, a Unix time in seconds. -/
def GoInt.sampleTime : GoInt := ⟨1700000000, by decide, by decide⟩

/-- Go `Quote{RegularMarketPrice: -1, RegularMarketVolume: -1, Bid: 2, Ask: 1}`: a negative
price, a negative volume and an ask below the bid. -/
def Quote.inverted : Quote :=
  { Quote.zero with
    RegularMarketPrice := Float64.negOne
    RegularMarketVolume := GoInt.negOne
    Bid := Float64.two
    Ask := Float64.one }

/-- Go `Quote{AverageDailyVolume3Month: -1, AverageDailyVolume10Day: -1}`. -/
def Quote.negativeVolume : Quote :=
  { Quote.zero with
    AverageDailyVolume3Month := GoInt.negOne
    AverageDailyVolume10Day := GoInt.negOne }

/-- Go `Quote{MarketState: MarketStateRegular, PreMarketPrice: 1, PostMarketTime: 1700000000}`. -/
def Quote.regularWithExtendedHours : Quote :=
  { Quote.zero with
    MarketState := MarketStateRegular
    PreMarketPrice := Float64.one
    PostMarketTime := GoInt.sampleTime }

theorem QuoteType.ofString_mem_quoteTypeConstants (s : String) :
    QuoteType.ofString s ∈ quoteTypeConstants ↔ s ∈ quoteTypeLiterals := by
  simp [quoteTypeConstants, quoteTypeLiterals, QuoteType.ofString, QuoteTypeEquity,
    QuoteTypeIndex, QuoteTypeOption, QuoteTypeForexPair, QuoteTypeFuture, QuoteTypeETF,
    QuoteTypeMutualFund]

theorem MarketState.ofString_mem_marketStateConstants (s : String) :
    MarketState.ofString s ∈ marketStateConstants ↔ s ∈ marketStateLiterals := by
  simp [marketStateConstants, marketStateLiterals, MarketState.ofString, MarketStatePrePre,
    MarketStatePre, MarketStateRegular, MarketStatePost, MarketStatePostPost, MarketStateClosed]

theorem Field.mem_all (f : Field) : f ∈ Field.all := by
  cases f <;> decide

theorem Quote.get_eq_projection (q : Quote) :
    q.get Field.Symbol = q.Symbol ∧
    q.get Field.MarketState = q.MarketState ∧
    q.get Field.QuoteType = q.QuoteType ∧
    q.get Field.ShortName = q.ShortName ∧
    q.get Field.LongName = q.LongName ∧
    q.get Field.RegularMarketChangePercent = q.RegularMarketChangePercent ∧
    q.get Field.RegularMarketPreviousClose = q.RegularMarketPreviousClose ∧
    q.get Field.RegularMarketPrice = q.RegularMarketPrice ∧
    q.get Field.RegularMarketTime = q.RegularMarketTime ∧
    q.get Field.RegularMarketChange = q.RegularMarketChange ∧
    q.get Field.RegularMarketOpen = q.RegularMarketOpen ∧
    q.get Field.RegularMarketDayHigh = q.RegularMarketDayHigh ∧
    q.get Field.RegularMarketDayLow = q.RegularMarketDayLow ∧
    q.get Field.RegularMarketVolume = q.RegularMarketVolume ∧
    q.get Field.Bid = q.Bid ∧
    q.get Field.Ask = q.Ask ∧
    q.get Field.BidSize = q.BidSize ∧
    q.get Field.AskSize = q.AskSize ∧
    q.get Field.PreMarketPrice = q.PreMarketPrice ∧
    q.get Field.PreMarketChange = q.PreMarketChange ∧
    q.get Field.PreMarketChangePercent = q.PreMarketChangePercent ∧
    q.get Field.PreMarketTime = q.PreMarketTime ∧
    q.get Field.PostMarketPrice = q.PostMarketPrice ∧
    q.get Field.PostMarketChange = q.PostMarketChange ∧
    q.get Field.PostMarketChangePercent = q.PostMarketChangePercent ∧
    q.get Field.PostMarketTime = q.PostMarketTime ∧
    q.get Field.FiftyTwoWeekLowChange = q.FiftyTwoWeekLowChange ∧
    q.get Field.FiftyTwoWeekLowChangePercent = q.FiftyTwoWeekLowChangePercent ∧
    q.get Field.FiftyTwoWeekHighChange = q.FiftyTwoWeekHighChange ∧
    q.get Field.FiftyTwoWeekHighChangePercent = q.FiftyTwoWeekHighChangePercent ∧
    q.get Field.FiftyTwoWeekLow = q.FiftyTwoWeekLow ∧
    q.get Field.FiftyTwoWeekHigh = q.FiftyTwoWeekHigh ∧
    q.get Field.FiftyDayAverage = q.FiftyDayAverage ∧
    q.get Field.FiftyDayAverageChange = q.FiftyDayAverageChange ∧
    q.get Field.FiftyDayAverageChangePercent = q.FiftyDayAverageChangePercent ∧
    q.get Field.TwoHundredDayAverage = q.TwoHundredDayAverage ∧
    q.get Field.TwoHundredDayAverageChange = q.TwoHundredDayAverageChange ∧
    q.get Field.TwoHundredDayAverageChangePercent = q.TwoHundredDayAverageChangePercent ∧
    q.get Field.AverageDailyVolume3Month = q.AverageDailyVolume3Month ∧
    q.get Field.AverageDailyVolume10Day = q.AverageDailyVolume10Day ∧
    q.get Field.QuoteSource = q.QuoteSource ∧
    q.get Field.CurrencyID = q.CurrencyID ∧
    q.get Field.IsTradeable = q.IsTradeable ∧
    q.get Field.QuoteDelay = q.QuoteDelay ∧
    q.get Field.FullExchangeName = q.FullExchangeName ∧
    q.get Field.SourceInterval = q.SourceInterval ∧
    q.get Field.ExchangeTimezoneName = q.ExchangeTimezoneName ∧
    q.get Field.ExchangeTimezoneShortName = q.ExchangeTimezoneShortName ∧
    q.get Field.GMTOffSetMilliseconds = q.GMTOffSetMilliseconds ∧
    q.get Field.MarketID = q.MarketID ∧
    q.get Field.ExchangeID = q.ExchangeID ∧
    q.get Field.EpsTrailingTwelveMonths = q.EpsTrailingTwelveMonths ∧
    q.get Field.EpsForward = q.EpsForward ∧
    q.get Field.EarningsTimestamp = q.EarningsTimestamp ∧
    q.get Field.EarningsTimestampStart = q.EarningsTimestampStart ∧
    q.get Field.EarningsTimestampEnd = q.EarningsTimestampEnd ∧
    q.get Field.TrailingAnnualDividendRate = q.TrailingAnnualDividendRate ∧
    q.get Field.DividendDate = q.DividendDate ∧
    q.get Field.TrailingAnnualDividendYield = q.TrailingAnnualDividendYield ∧
    q.get Field.TrailingPE = q.TrailingPE ∧
    q.get Field.ForwardPE = q.ForwardPE ∧
    q.get Field.BookValue = q.BookValue ∧
    q.get Field.PriceToBook = q.PriceToBook ∧
    q.get Field.SharesOutstanding = q.SharesOutstanding ∧
    q.get Field.MarketCap = q.MarketCap ∧
    q.get Field.YTDReturn = q.YTDReturn ∧
    q.get Field.TrailingThreeMonthReturns = q.TrailingThreeMonthReturns ∧
    q.get Field.TrailingThreeMonthNavReturns = q.TrailingThreeMonthNavReturns ∧
    q.get Field.UnderlyingSymbol = q.UnderlyingSymbol ∧
    q.get Field.OpenInterest = q.OpenInterest ∧
    q.get Field.ExpireDate = q.ExpireDate ∧
    q.get Field.Strike = q.Strike ∧
    q.get Field.UnderlyingExchangeSymbol = q.UnderlyingExchangeSymbol ∧
    q.get Field.HeadSymbolAsString = q.HeadSymbolAsString ∧
    q.get Field.IsContractSymbol = q.IsContractSymbol := by
  repeat (first | exact rfl | refine ⟨rfl, ?_⟩)

theorem Quote.get_ofFields (vals : (f : Field) → f.type) (f : Field) :
    (Quote.ofFields vals).get f = vals f := by
  cases f <;> rfl

theorem Quote.get_set_self (q : Quote) (f : Field) (v : f.type) : (q.set f v).get f = v := by
  cases f <;> rfl

set_option maxHeartbeats 4000000 in
theorem Quote.get_set_other (q : Quote) (f g : Field) (v : f.type) (h : g ≠ f) :
    (q.set f v).get g = q.get g := by
  cases f <;> cases g <;> first | rfl | exact absurd rfl h

theorem Field.foldKey_nodup : (Field.all.map fun f => foldKey f.jsonKey).Nodup := by
  decide

theorem Field.foldKey_injective (f g : Field) (h : foldKey f.jsonKey = foldKey g.jsonKey) :
    f = g :=
  List.inj_on_of_nodup_map Field.foldKey_nodup (Field.mem_all f) (Field.mem_all g) h

/-- C1: converting each of the seven instrument-type wire strings to `QuoteType` yields the
corresponding constant, and the seven constants are pairwise distinct, so the conversion of a
string equals at most one of them. -/
theorem quoteType_decode_literals :
    QuoteType.ofString "EQUITY" = QuoteTypeEquity ∧
    QuoteType.ofString "INDEX" = QuoteTypeIndex ∧
    QuoteType.ofString "OPTION" = QuoteTypeOption ∧
    QuoteType.ofString "CURRENCY" = QuoteTypeForexPair ∧
    QuoteType.ofString "FUTURE" = QuoteTypeFuture ∧
    QuoteType.ofString "ETF" = QuoteTypeETF ∧
    QuoteType.ofString "MUTUALFUND" = QuoteTypeMutualFund ∧
    quoteTypeConstants.Pairwise (fun a b => a ≠ b) ∧
    ∀ s : String, quoteTypeConstants.count (QuoteType.ofString s) ≤ 1 := by
  refine ⟨rfl, rfl, rfl, rfl, rfl, rfl, rfl, by decide, fun s => ?_⟩
  exact List.nodup_iff_count_le_one.mp (by decide) _

/-- C2: converting each of the six market-state wire strings to `MarketState` yields the
corresponding constant, and the six constants are pairwise distinct (in particular `PRE` is not
`PREPRE` and `POST` is not `POSTPOST`), so the conversion of a string equals at most one of
them. -/
theorem marketState_decode_literals :
    MarketState.ofString "PREPRE" = MarketStatePrePre ∧
    MarketState.ofString "PRE" = MarketStatePre ∧
    MarketState.ofString "REGULAR" = MarketStateRegular ∧
    MarketState.ofString "POST" = MarketStatePost ∧
    MarketState.ofString "POSTPOST" = MarketStatePostPost ∧
    MarketState.ofString "CLOSED" = MarketStateClosed ∧
    marketStateConstants.Pairwise (fun a b => a ≠ b) ∧
    MarketStatePre ≠ MarketStatePrePre ∧ MarketStatePost ≠ MarketStatePostPost ∧
    ∀ s : String, marketStateConstants.count (MarketState.ofString s) ≤ 1 := by
  refine ⟨rfl, rfl, rfl, rfl, rfl, rfl, by decide, by decide, by decide, fun s => ?_⟩
  exact List.nodup_iff_count_le_one.mp (by decide) _

/-- C3: a string that is not one of the seven instrument-type literals converts to a `QuoteType`
different from all seven constants, and a string that is not one of the six market-state
literals converts to a `MarketState` different from all six constants: an out-of-set string is
never coerced to an existing member. -/
theorem out_of_set_not_coerced (s : String) :
    (s ∉ quoteTypeLiterals → QuoteType.ofString s ∉ quoteTypeConstants) ∧
    (s ∉ marketStateLiterals → MarketState.ofString s ∉ marketStateConstants) :=
  ⟨fun h hc => h ((QuoteType.ofString_mem_quoteTypeConstants s).mp hc),
   fun h hc => h ((MarketState.ofString_mem_marketStateConstants s).mp hc)⟩

/-- Witness of C3 at the string `BOGUS`, which is in neither vocabulary. -/
theorem out_of_set_not_coerced_witness :
    "BOGUS" ∉ quoteTypeLiterals ∧ "BOGUS" ∉ marketStateLiterals ∧
    QuoteType.ofString "BOGUS" ∉ quoteTypeConstants ∧
    MarketState.ofString "BOGUS" ∉ marketStateConstants :=
  ⟨by decide, by decide, (out_of_set_not_coerced "BOGUS").1 (by decide),
   (out_of_set_not_coerced "BOGUS").2 (by decide)⟩

/-! ## The record: what the type admits -/

/-- C5 fails: the zero-valued `Quote` carries the empty string in both classification fields,
which is none of the seven `QuoteType` constants and none of the six `MarketState` constants. -/
theorem zero_quote_classification_unrecognized :
    Quote.zero.QuoteType ∉ quoteTypeConstants ∧ Quote.zero.MarketState ∉ marketStateConstants ∧
    ¬ (∀ q : Quote, q.QuoteType ∈ quoteTypeConstants ∧ q.MarketState ∈ marketStateConstants) :=
  ⟨by decide, by decide, fun h => absurd (h Quote.zero).1 (by decide)⟩

/-- C5 as amended: the classification fields of a `Quote` hold whatever strings they are given.
For every pair of strings `s`, `t` there is a `Quote` whose `QuoteType` is `QuoteType(s)` and
whose `MarketState` is `MarketState(t)`; its `QuoteType` is one of the seven constants exactly
when `s` is one of the seven literals, and its `MarketState` is one of the six constants exactly
when `t` is one of the six literals. -/
theorem quote_classification_unconstrained (s t : String) :
    ∃ q : Quote, q.QuoteType = QuoteType.ofString s ∧ q.MarketState = MarketState.ofString t ∧
      (q.QuoteType ∈ quoteTypeConstants ↔ s ∈ quoteTypeLiterals) ∧
      (q.MarketState ∈ marketStateConstants ↔ t ∈ marketStateLiterals) :=
  ⟨(Quote.zero.set Field.QuoteType (QuoteType.ofString s)).set Field.MarketState
      (MarketState.ofString t),
    rfl, rfl, QuoteType.ofString_mem_quoteTypeConstants s, MarketState.ofString_mem_marketStateConstants t⟩

/-- C6 fails: every field of `Quote` is exported, and assigning `"AAPL"` to the `Symbol` of the
zero-valued `Quote` changes that field. -/
theorem assign_symbol_changes_quote :
    (Quote.zero.set Field.Symbol "AAPL").Symbol = "AAPL" ∧
    (Quote.zero.set Field.Symbol "AAPL").Symbol ≠ Quote.zero.Symbol ∧
    Quote.zero.set Field.Symbol "AAPL" ≠ Quote.zero :=
  ⟨rfl, by decide, by decide⟩

/-- C6 as amended: assigning a value to a field of a `Quote` changes that field to the assigned
value and leaves every other field as it was. -/
theorem assign_field_frame (q : Quote) (f : Field) (v : f.type) :
    (q.set f v).get f = v ∧ ∀ g : Field, g ≠ f → (q.set f v).get g = q.get g :=
  ⟨Quote.get_set_self q f v, fun g h => Quote.get_set_other q f g v h⟩

/-- Witness of the amended C6: assigning `Symbol` of the zero-valued `Quote` sets `Symbol` and
leaves `RegularMarketPrice` alone. -/
theorem assign_field_frame_witness :
    Field.RegularMarketPrice ≠ Field.Symbol ∧
    (Quote.zero.set Field.Symbol "AAPL").get Field.Symbol = "AAPL" ∧
    (Quote.zero.set Field.Symbol "AAPL").get Field.RegularMarketPrice =
      Quote.zero.get Field.RegularMarketPrice :=
  ⟨by decide, (assign_field_frame Quote.zero Field.Symbol "AAPL").1,
   (assign_field_frame Quote.zero Field.Symbol "AAPL").2 Field.RegularMarketPrice (by decide)⟩

/-- C7: constructing a `Quote` never rejects a field set: for every choice of a value of the
declared type for each field, the composite literal yields a `Quote` holding exactly those
values; and a `Quote` with a negative `RegularMarketPrice`, a negative `RegularMarketVolume` and
`Ask` below `Bid` exists. -/
theorem construct_accepts_any_values :
    (∀ (vals : (f : Field) → f.type) (f : Field), (Quote.ofFields vals).get f = vals f) ∧
    Quote.inverted.RegularMarketPrice.lt Float64.zero = true ∧
    Quote.inverted.RegularMarketVolume.val < 0 ∧
    Quote.inverted.Ask.lt Quote.inverted.Bid = true :=
  ⟨Quote.get_ofFields, by decide, by decide, by decide⟩

/-- C8 fails: the two volume statistics are signed integers, and a `Quote` holding `-1` in both
exists. -/
theorem negative_volume_stats_quote :
    Quote.negativeVolume.AverageDailyVolume3Month.val = -1 ∧
    Quote.negativeVolume.AverageDailyVolume10Day.val = -1 ∧
    ¬ (0 ≤ Quote.negativeVolume.AverageDailyVolume3Month.val) ∧
    ¬ (0 ≤ Quote.negativeVolume.AverageDailyVolume10Day.val) :=
  ⟨rfl, rfl, by decide, by decide⟩

/-- C8 as amended: for every `Quote` the two volume statistics are signed 64-bit integers, each
at least `-2^63` and below `2^63`; every pair of such integers, negative ones included, is held
by some `Quote`; the zero-valued `Quote` holds 0 in both. -/
theorem volume_stats_signed_range :
    (∀ q : Quote,
      -9223372036854775808 ≤ q.AverageDailyVolume3Month.val ∧
      q.AverageDailyVolume3Month.val < 9223372036854775808 ∧
      -9223372036854775808 ≤ q.AverageDailyVolume10Day.val ∧
      q.AverageDailyVolume10Day.val < 9223372036854775808) ∧
    (∀ a b : GoInt, ∃ q : Quote,
      q.AverageDailyVolume3Month = a ∧ q.AverageDailyVolume10Day = b) ∧
    Quote.zero.AverageDailyVolume3Month.val = 0 ∧ Quote.zero.AverageDailyVolume10Day.val = 0 :=
  ⟨fun q => ⟨q.AverageDailyVolume3Month.lo, q.AverageDailyVolume3Month.hi,
      q.AverageDailyVolume10Day.lo, q.AverageDailyVolume10Day.hi⟩,
   fun a b => ⟨(Quote.zero.set Field.AverageDailyVolume3Month a).set
      Field.AverageDailyVolume10Day b, rfl, rfl⟩,
   rfl, rfl⟩

/-- C9 fails: a `Quote` in market state `REGULAR` (neither `PRE`, `PREPRE`, `POST` nor
`POSTPOST`) can hold a non-zero `PreMarketPrice` and a non-zero `PostMarketTime`. -/
theorem regular_quote_with_extended_hours_data :
    Quote.regularWithExtendedHours.MarketState = MarketStateRegular ∧
    Quote.regularWithExtendedHours.MarketState ≠ MarketStatePre ∧
    Quote.regularWithExtendedHours.MarketState ≠ MarketStatePrePre ∧
    Quote.regularWithExtendedHours.MarketState ≠ MarketStatePost ∧
    Quote.regularWithExtendedHours.MarketState ≠ MarketStatePostPost ∧
    Quote.regularWithExtendedHours.PreMarketPrice ≠ Float64.zero ∧
    Quote.regularWithExtendedHours.PostMarketTime ≠ GoInt.zero :=
  ⟨rfl, by decide, by decide, by decide, by decide, by decide, by decide⟩

/-- C9 as amended: the record places no relation between `MarketState` and the pre-market and
post-market groups: for every market state and every choice of values for the eight fields a
`Quote` holding them exists; in the zero-valued `Quote` all eight are at their zero default. -/
theorem extended_hours_fields_independent :
    (∀ (m : MarketState) (prePrice preChange prePercent : Float64) (preTime : GoInt)
        (postPrice postChange postPercent : Float64) (postTime : GoInt),
      ∃ q : Quote, q.MarketState = m ∧
        q.PreMarketPrice = prePrice ∧ q.PreMarketChange = preChange ∧
        q.PreMarketChangePercent = prePercent ∧ q.PreMarketTime = preTime ∧
        q.PostMarketPrice = postPrice ∧ q.PostMarketChange = postChange ∧
        q.PostMarketChangePercent = postPercent ∧ q.PostMarketTime = postTime) ∧
    Quote.zero.PreMarketPrice = Float64.zero ∧ Quote.zero.PreMarketChange = Float64.zero ∧
    Quote.zero.PreMarketChangePercent = Float64.zero ∧ Quote.zero.PreMarketTime = GoInt.zero ∧
    Quote.zero.PostMarketPrice = Float64.zero ∧ Quote.zero.PostMarketChange = Float64.zero ∧
    Quote.zero.PostMarketChangePercent = Float64.zero ∧ Quote.zero.PostMarketTime = GoInt.zero :=
  ⟨fun m a b c d e f g h =>
    ⟨{ Quote.zero with
        MarketState := m
        PreMarketPrice := a
        PreMarketChange := b
        PreMarketChangePercent := c
        PreMarketTime := d
        PostMarketPrice := e
        PostMarketChange := f
        PostMarketChangePercent := g
        PostMarketTime := h },
      rfl, rfl, rfl, rfl, rfl, rfl, rfl, rfl, rfl⟩,
   rfl, rfl, rfl, rfl, rfl, rfl, rfl, rfl⟩

/-! ## Round trip through a wire representation -/

/-- C10: the JSON key of every field of `Quote` is non-empty, and two different fields have
different keys, also when the keys are compared without regard to letter case. -/
theorem json_keys_nonempty_distinct (f g : Field) :
    f.jsonKey ≠ "" ∧
    (f ≠ g → f.jsonKey ≠ g.jsonKey) ∧
    (f ≠ g → foldKey f.jsonKey ≠ foldKey g.jsonKey) :=
  ⟨by cases f <;> decide,
   fun h hk => h (Field.foldKey_injective f g (congrArg foldKey hk)),
   fun h hk => h (Field.foldKey_injective f g hk)⟩

/-- Witness of C10 at the fields `Symbol` and `ShortName`. -/
theorem json_keys_nonempty_distinct_witness :
    Field.Symbol ≠ Field.ShortName ∧
    Field.Symbol.jsonKey ≠ Field.ShortName.jsonKey ∧
    foldKey Field.Symbol.jsonKey ≠ foldKey Field.ShortName.jsonKey :=
  ⟨by decide, (json_keys_nonempty_distinct Field.Symbol Field.ShortName).2.1 (by decide),
   (json_keys_nonempty_distinct Field.Symbol Field.ShortName).2.2 (by decide)⟩

end Finance
